import Mathlib

/-!
Shallow embedding of the ADCS supervisory controller
(source files `code.py` and `code1.py`).

The four control modes, the fault-persistence counters, the
state-transition logic of both source variants, the persistence
(save/load) record handling, and a stream-based model of one
iteration of the main control loop are translated below, faithfully
to the Python source.  Simulated sensor readings (`random.uniform`
draws) are modelled as consumption from an explicit oracle stream of
rational numbers; Python floats are modelled as rationals, which is
exact for every comparison the program performs.
-/

/-- The ADCS mode enumeration (`class ADCSState(enum.Enum)` in both files). -/
inductive ADCSState where
  | DETUMBLING
  | SUN_ACQUISITION
  | NOMINAL_POINTING
  | SAFE_MODE
deriving DecidableEq, Repr

/-- `ANGULAR_RATE_THRESHOLD = 5.0` (deg/s). -/
def ANGULAR_RATE_THRESHOLD : ℚ := 5

/-- `SUN_ALIGNMENT_THRESHOLD = 5.0` (degrees). -/
def SUN_ALIGNMENT_THRESHOLD : ℚ := 5

/-- `SAFE_POWER_THRESHOLD = 19` (percent), shared by code.py and code1.py. -/
def SAFE_POWER_THRESHOLD : ℚ := 19

/-- `HIGH_RATE_PERSISTENCE_COUNT = 3` (code.py). -/
def HIGH_RATE_PERSISTENCE_COUNT : ℕ := 3

/-- `SENSOR_FAIL_PERSISTENCE_COUNT = 3` (code.py). -/
def SENSOR_FAIL_PERSISTENCE_COUNT : ℕ := 3

/-- The telemetry values one call of code.py's `state_transition` obtains:
`angular_rate`, `sun_error`, `power_ok` (result of `check_power`),
`eclipse` (result of `in_eclipse`), and `sensor_ok` (outcome of the
three-attempt `check_sensors` retry loop). -/
structure Telemetry where
  angular_rate : ℚ
  sun_error : ℚ
  power_ok : Bool
  eclipse : Bool
  sensor_ok : Bool
deriving DecidableEq, Repr

/-- The two global persistence counters of code.py
(`high_rate_counter`, `sensor_fail_counter`). -/
structure Counters where
  high_rate_counter : ℕ
  sensor_fail_counter : ℕ
deriving DecidableEq, Repr

/-- The sensor-streak update of code.py's `state_transition` Case 1:
`sensor_fail_counter += 1` when the retried sensor check failed this
cycle, `sensor_fail_counter = 0` otherwise. -/
def next_sensor_fail_counter (t : Telemetry) (c : Counters) : ℕ :=
  if !t.sensor_ok then c.sensor_fail_counter + 1 else 0

/-- The high-rate-streak update of code.py's `state_transition` Case 2:
`high_rate_counter += 1` when `angular_rate > ANGULAR_RATE_THRESHOLD`
this cycle, `high_rate_counter = 0` otherwise. -/
def next_high_rate_counter (t : Telemetry) (c : Counters) : ℕ :=
  if ANGULAR_RATE_THRESHOLD < t.angular_rate then c.high_rate_counter + 1 else 0

set_option linter.unusedVariables false in
/-- code.py `state_transition(current_state)`, with the sensor readings and
the global counters made explicit inputs and the updated counters made an
explicit output.  Branch order follows the source: Case 1 sensor anomalies
(update sensor streak, early return `SAFE_MODE` when the streak reaches
`SENSOR_FAIL_PERSISTENCE_COUNT`; note the early return leaves the
high-rate streak untouched), Case 2 high angular rate (update high-rate
streak, early return `DETUMBLING` when it reaches
`HIGH_RATE_PERSISTENCE_COUNT`), Case 3 low power during eclipse
(`SAFE_MODE`), Case 4 sun alignment (`NOMINAL_POINTING` /
`SUN_ACQUISITION`).  `current_state` is accepted but, as in the source,
never read. -/
def state_transition (current_state : ADCSState) (t : Telemetry) (c : Counters) :
    ADCSState × Counters :=
  let sfc : ℕ := next_sensor_fail_counter t c
  if SENSOR_FAIL_PERSISTENCE_COUNT ≤ sfc then
    (ADCSState.SAFE_MODE, ⟨c.high_rate_counter, sfc⟩)
  else
    let hrc : ℕ := next_high_rate_counter t c
    if HIGH_RATE_PERSISTENCE_COUNT ≤ hrc then
      (ADCSState.DETUMBLING, ⟨hrc, sfc⟩)
    else if !t.power_ok && t.eclipse then
      (ADCSState.SAFE_MODE, ⟨hrc, sfc⟩)
    else if t.sun_error < SUN_ALIGNMENT_THRESHOLD then
      (ADCSState.NOMINAL_POINTING, ⟨hrc, sfc⟩)
    else
      (ADCSState.SUN_ACQUISITION, ⟨hrc, sfc⟩)

/-- Case 1 of `state_transition`: when the updated sensor streak reaches
the persistence count, the function returns `SAFE_MODE` early, storing the
updated sensor streak and the untouched high-rate streak. -/
theorem state_transition_sensor_rule (cur : ADCSState) (t : Telemetry) (c : Counters)
    (h : SENSOR_FAIL_PERSISTENCE_COUNT ≤ next_sensor_fail_counter t c) :
    state_transition cur t c
      = (ADCSState.SAFE_MODE, ⟨c.high_rate_counter, next_sensor_fail_counter t c⟩) := by
  simp only [state_transition]
  rw [if_pos h]

/-- Case 2 of `state_transition`: when Case 1 does not fire and the updated
high-rate streak reaches the persistence count, the function returns
`DETUMBLING`. -/
theorem state_transition_high_rate_rule (cur : ADCSState) (t : Telemetry) (c : Counters)
    (h1 : next_sensor_fail_counter t c < SENSOR_FAIL_PERSISTENCE_COUNT)
    (h2 : HIGH_RATE_PERSISTENCE_COUNT ≤ next_high_rate_counter t c) :
    state_transition cur t c
      = (ADCSState.DETUMBLING, ⟨next_high_rate_counter t c, next_sensor_fail_counter t c⟩) := by
  simp only [state_transition]
  rw [if_neg (by omega), if_pos h2]

/-- Case 3 of `state_transition`: when Cases 1 and 2 do not fire and power
is low during eclipse, the function returns `SAFE_MODE`. -/
theorem state_transition_power_rule (cur : ADCSState) (t : Telemetry) (c : Counters)
    (h1 : next_sensor_fail_counter t c < SENSOR_FAIL_PERSISTENCE_COUNT)
    (h2 : next_high_rate_counter t c < HIGH_RATE_PERSISTENCE_COUNT)
    (h3 : (!t.power_ok && t.eclipse) = true) :
    state_transition cur t c
      = (ADCSState.SAFE_MODE, ⟨next_high_rate_counter t c, next_sensor_fail_counter t c⟩) := by
  simp only [state_transition]
  rw [if_neg (by omega), if_neg (by omega), if_pos h3]

/-- Case 4 of `state_transition`, first arm: with no fault rule firing and
an acceptable sun-alignment error, the function returns
`NOMINAL_POINTING`. -/
theorem state_transition_sun_rule (cur : ADCSState) (t : Telemetry) (c : Counters)
    (h1 : next_sensor_fail_counter t c < SENSOR_FAIL_PERSISTENCE_COUNT)
    (h2 : next_high_rate_counter t c < HIGH_RATE_PERSISTENCE_COUNT)
    (h3 : (!t.power_ok && t.eclipse) = false)
    (h4 : t.sun_error < SUN_ALIGNMENT_THRESHOLD) :
    state_transition cur t c
      = (ADCSState.NOMINAL_POINTING, ⟨next_high_rate_counter t c, next_sensor_fail_counter t c⟩) := by
  simp only [state_transition]
  rw [if_neg (by omega), if_neg (by omega), h3, if_neg (by simp), if_pos h4]

/-- Case 4 of `state_transition`, second arm: with no fault rule firing
and a sun-alignment error at or above the threshold, the function returns
`SUN_ACQUISITION`. -/
theorem state_transition_sun_acq_rule (cur : ADCSState) (t : Telemetry) (c : Counters)
    (h1 : next_sensor_fail_counter t c < SENSOR_FAIL_PERSISTENCE_COUNT)
    (h2 : next_high_rate_counter t c < HIGH_RATE_PERSISTENCE_COUNT)
    (h3 : (!t.power_ok && t.eclipse) = false)
    (h4 : ¬ t.sun_error < SUN_ALIGNMENT_THRESHOLD) :
    state_transition cur t c
      = (ADCSState.SUN_ACQUISITION, ⟨next_high_rate_counter t c, next_sensor_fail_counter t c⟩) := by
  simp only [state_transition]
  rw [if_neg (by omega), if_neg (by omega), h3, if_neg (by simp), if_neg h4]

/-- The sensor-streak update on a failed check. -/
theorem next_sensor_fail_counter_bad (t : Telemetry) (c : Counters)
    (h : t.sensor_ok = false) :
    next_sensor_fail_counter t c = c.sensor_fail_counter + 1 := by
  simp [next_sensor_fail_counter, h]

/-- The sensor-streak update on a successful check. -/
theorem next_sensor_fail_counter_good (t : Telemetry) (c : Counters)
    (h : t.sensor_ok = true) :
    next_sensor_fail_counter t c = 0 := by
  simp [next_sensor_fail_counter, h]

/-- The high-rate-streak update on a high reading. -/
theorem next_high_rate_counter_bad (t : Telemetry) (c : Counters)
    (h : ANGULAR_RATE_THRESHOLD < t.angular_rate) :
    next_high_rate_counter t c = c.high_rate_counter + 1 := by
  simp [next_high_rate_counter, h]

/-- The high-rate-streak update on a low reading. -/
theorem next_high_rate_counter_good (t : Telemetry) (c : Counters)
    (h : ¬ ANGULAR_RATE_THRESHOLD < t.angular_rate) :
    next_high_rate_counter t c = 0 := by
  simp [next_high_rate_counter, h]

/-- The telemetry values one call of code1.py's `state_transition` obtains:
`angular_rate`, `sun_error`, `power_ok` (result of `check_power`),
`in_shadow` (its own `in_eclipse()` draw), and `sensor_ok` (retry-loop
outcome, computed but never used by that variant). -/
structure Telemetry1 where
  angular_rate : ℚ
  sun_error : ℚ
  power_ok : Bool
  in_shadow : Bool
  sensor_ok : Bool
deriving DecidableEq, Repr

set_option linter.unusedVariables false in
/-- code1.py `state_transition(current_state)`: no persistence counters;
rule order is power/eclipse, then instantaneous high angular rate, then
sun alignment.  `current_state` is accepted but never read. -/
def state_transition1 (current_state : ADCSState) (t : Telemetry1) : ADCSState :=
  if !t.power_ok && t.in_shadow then
    ADCSState.SAFE_MODE
  else if ANGULAR_RATE_THRESHOLD < t.angular_rate then
    ADCSState.DETUMBLING
  else if t.sun_error < SUN_ALIGNMENT_THRESHOLD then
    ADCSState.NOMINAL_POINTING
  else
    ADCSState.SUN_ACQUISITION

/-!
Persistence store (`save_state` / `load_state` of code.py).

`save_state` writes the JSON record `{"state": state.name}`; `load_state`
reads the file, parses it with `json.load`, and evaluates
`ADCSState[data["state"]]`, catching `IOError`, `KeyError` and
`json.JSONDecodeError` (and only those) and defaulting to `DETUMBLING`.
The file content is modelled as either absent, unreadable, unparsable, or
a parsed JSON value; Python exception behaviour of the subscript and the
enum lookup is modelled explicitly: subscripting a non-dict JSON value
with a string raises `TypeError`, looking up a missing key raises
`KeyError`, `ADCSState[v]` raises `KeyError` for any hashable non-member
`v` and `TypeError` for unhashable `v` (lists, dicts).  `TypeError` is not
in the except clause, so it escapes `load_state`. -/

/-- A JSON value, as produced by `json.load`. -/
inductive Json where
  | null
  | bool (b : Bool)
  | num (q : ℚ)
  | str (s : String)
  | arr (elems : List Json)
  | obj (fields : List (String × Json))

/-- The Python exceptions that can arise from `data["state"]` and
`ADCSState[...]` once the file has parsed: `KeyError` is caught by
`load_state`, `TypeError` is not. -/
inductive PyErr where
  | keyError
  | typeError
deriving DecidableEq, Repr

/-- Key lookup in a parsed JSON object. -/
def lookupField : List (String × Json) → String → Option Json
  | [], _ => none
  | (k, v) :: rest, key => if k = key then some v else lookupField rest key

/-- Python subscript `data[key]` on a parsed JSON value: a dict yields the
value or raises `KeyError`; any other value raises `TypeError` when
subscripted with a string. -/
def getItem (j : Json) (key : String) : Except PyErr Json :=
  match j with
  | Json.obj fields =>
    match lookupField fields key with
    | some v => Except.ok v
    | none => Except.error PyErr.keyError
  | _ => Except.error PyErr.typeError

/-- `state.name` for each enum member. -/
def enumName : ADCSState → String
  | ADCSState.DETUMBLING => "DETUMBLING"
  | ADCSState.SUN_ACQUISITION => "SUN_ACQUISITION"
  | ADCSState.NOMINAL_POINTING => "NOMINAL_POINTING"
  | ADCSState.SAFE_MODE => "SAFE_MODE"

/-- `ADCSState[v]`: enum member lookup by name.  A string that is not a
member name, or any other hashable value, raises `KeyError`; an unhashable
value (list, dict) raises `TypeError`. -/
def enumIndex (v : Json) : Except PyErr ADCSState :=
  match v with
  | Json.str s =>
    if s = "DETUMBLING" then Except.ok ADCSState.DETUMBLING
    else if s = "SUN_ACQUISITION" then Except.ok ADCSState.SUN_ACQUISITION
    else if s = "NOMINAL_POINTING" then Except.ok ADCSState.NOMINAL_POINTING
    else if s = "SAFE_MODE" then Except.ok ADCSState.SAFE_MODE
    else Except.error PyErr.keyError
  | Json.null => Except.error PyErr.keyError
  | Json.bool _ => Except.error PyErr.keyError
  | Json.num _ => Except.error PyErr.keyError
  | Json.arr _ => Except.error PyErr.typeError
  | Json.obj _ => Except.error PyErr.typeError

/-- The possible states of the persisted record as `load_state` finds it:
file missing (`os.path.exists` false), `IOError` while reading,
`json.JSONDecodeError` while parsing, or a successfully parsed value. -/
inductive LoadInput where
  | missing
  | readFailure
  | unparsable
  | parsed (j : Json)

/-- code.py `save_state(state)`: the JSON record written on a successful
write, `{"state": state.name}`. -/
def save_state (state : ADCSState) : Json :=
  Json.obj [("state", Json.str (enumName state))]

/-- code.py `load_state()`: returns the stored mode, defaulting to
`DETUMBLING` on a missing file, a read failure, a parse failure, or a
caught `KeyError`; an uncaught `TypeError` (from subscripting a non-dict
JSON value or indexing the enum with an unhashable value) propagates as
`Except.error`. -/
def load_state : LoadInput → Except PyErr ADCSState
  | LoadInput.missing => Except.ok ADCSState.DETUMBLING
  | LoadInput.readFailure => Except.ok ADCSState.DETUMBLING
  | LoadInput.unparsable => Except.ok ADCSState.DETUMBLING
  | LoadInput.parsed j =>
    match getItem j "state" with
    | Except.error PyErr.keyError => Except.ok ADCSState.DETUMBLING
    | Except.error PyErr.typeError => Except.error PyErr.typeError
    | Except.ok v =>
      match enumIndex v with
      | Except.ok m => Except.ok m
      | Except.error PyErr.keyError => Except.ok ADCSState.DETUMBLING
      | Except.error PyErr.typeError => Except.error PyErr.typeError

/-!
Stream model of one iteration of code.py's `main` loop.

Every simulated sensor read (`random.uniform`, `random.random`) consumes
the next value from an explicit oracle stream, in the exact order the
Python program performs the reads.  This makes visible that the actuation
function and `state_transition` each perform their own fresh reads within
one cycle. -/

/-- Consume one value from the oracle stream. -/
def draw (s : List ℚ) : ℚ × List ℚ := (s.headD 0, s.tail)

/-- `get_angular_rate()`: one simulated draw. -/
def get_angular_rate (s : List ℚ) : ℚ × List ℚ := draw s

/-- `get_sun_vector()`: one simulated draw. -/
def get_sun_vector (s : List ℚ) : ℚ × List ℚ := draw s

/-- `get_quaternion_error()`: one simulated draw. -/
def get_quaternion_error (s : List ℚ) : ℚ × List ℚ := draw s

/-- `check_power()`: draws a power level and compares it to
`SAFE_POWER_THRESHOLD`. -/
def check_power (s : List ℚ) : Bool × List ℚ :=
  (decide (SAFE_POWER_THRESHOLD < (draw s).1), (draw s).2)

/-- `in_eclipse()`: draws and tests `random.random() < 0.4`. -/
def in_eclipse (s : List ℚ) : Bool × List ℚ :=
  (decide ((draw s).1 < 2/5), (draw s).2)

/-- `check_sensors()`: draws and tests `random.random() > 0.1`. -/
def check_sensors (s : List ℚ) : Bool × List ℚ :=
  (decide (1/10 < (draw s).1), (draw s).2)

/-- The `for _ in range(3)` sensor retry loop of `state_transition`:
stops at the first successful check, consuming draws lazily. -/
def check_sensors_loop : ℕ → List ℚ → Bool × List ℚ
  | 0, s => (false, s)
  | n + 1, s =>
    let r := check_sensors s
    if r.1 then (true, r.2) else check_sensors_loop n r.2

/-- code.py `detumbling_control()`: reads its own angular rate and acts on
it (bang-bang torque when above threshold).  Returns the rate it acted on
together with the remaining stream. -/
def detumbling_control (s : List ℚ) : ℚ × List ℚ := get_angular_rate s

/-- code.py `sun_acquisition()`: reads its own sun error and acts on it. -/
def sun_acquisition (s : List ℚ) : ℚ × List ℚ := get_sun_vector s

/-- code.py `nominal_pointing()`: reads its own quaternion error and acts
on it. -/
def nominal_pointing (s : List ℚ) : ℚ × List ℚ := get_quaternion_error s

/-- The telemetry reads performed inside code.py's `state_transition`, in
source order: angular rate, sun error, power, eclipse, then the sensor
retry loop.  Returns the assembled sample, the transition result on it,
and the remaining stream. -/
def state_transition_reads (current_state : ADCSState) (c : Counters) (s : List ℚ) :
    Telemetry × (ADCSState × Counters) × List ℚ :=
  let a := get_angular_rate s
  let e := get_sun_vector a.2
  let p := check_power e.2
  let ec := in_eclipse p.2
  let sen := check_sensors_loop 3 ec.2
  let t : Telemetry := ⟨a.1, e.1, p.1, ec.1, sen.1⟩
  (t, state_transition current_state t c, sen.2)

/-- One iteration of code.py's `main` loop: dispatch the actuation function
of the current mode (which performs its own sensor reads), persist the
mode, then run `state_transition` (which performs fresh reads of its own).
The first component is the angular rate the detumbling actuation acted on
(`none` when the current mode reads no angular rate); the second is the
telemetry sample `state_transition` decided on. -/
def main_cycle (current_state : ADCSState) (c : Counters) (s : List ℚ) :
    Option ℚ × Telemetry × (ADCSState × Counters) × List ℚ :=
  let act : Option ℚ × List ℚ :=
    match current_state with
    | ADCSState.DETUMBLING => (some (detumbling_control s).1, (detumbling_control s).2)
    | ADCSState.SUN_ACQUISITION => (none, (sun_acquisition s).2)
    | ADCSState.NOMINAL_POINTING => (none, (nominal_pointing s).2)
    | ADCSState.SAFE_MODE => (none, s)
  (act.1, state_transition_reads current_state c act.2)

/-- The debounced persistent-sensor-fault flag of the spec, as code.py
realises it: `sensor_fail_counter >= SENSOR_FAIL_PERSISTENCE_COUNT`
(line `if sensor_fail_counter >= SENSOR_FAIL_PERSISTENCE_COUNT`). -/
def persistent_sensor_fail (c : Counters) : Bool :=
  decide (SENSOR_FAIL_PERSISTENCE_COUNT ≤ c.sensor_fail_counter)

/-- Run code.py's `state_transition` over a list of telemetry samples,
threading the updated counters and applying each returned mode as the next
current mode, exactly as the `main` loop does; collects every
(mode, counters) result. -/
def run_transitions (cur : ADCSState) (c : Counters) : List Telemetry → List (ADCSState × Counters)
  | [] => []
  | t :: rest =>
    let r := state_transition cur t c
    r :: run_transitions r.1 r.2 rest

/-- A cycle whose sensor check fails after all retries; all other
telemetry nominal (low rate, power ok, no eclipse). -/
def bad_sensor_sample : Telemetry := ⟨2, 10, true, false, false⟩

/-- A cycle whose sensor check succeeds; all other telemetry nominal. -/
def good_sensor_sample : Telemetry := ⟨2, 10, true, false, true⟩

/-- Claim C1 as stated is false on code.py: with `power_ok = false` and
`in_eclipse = true` but a high-rate streak one short of its persistence
count and an angular rate above threshold, code.py's `state_transition`
returns `DETUMBLING`, not `SAFE_MODE` — the debounced high-rate rule
(Case 2) is checked before the power/eclipse rule (Case 3). -/
theorem c1_counterexample :
    (state_transition ADCSState.NOMINAL_POINTING ⟨7, 10, false, true, true⟩ ⟨2, 0⟩).1
        = ADCSState.DETUMBLING ∧
    ADCSState.DETUMBLING ≠ ADCSState.SAFE_MODE := by
  decide

/-- Claim C1, amended: with `power_ok = false` and in eclipse, code.py's
`state_transition` returns `SAFE_MODE` regardless of the current mode and
the sensor streak, provided the cycle's updated high-rate streak stays
below `HIGH_RATE_PERSISTENCE_COUNT`; code1.py's `state_transition` returns
`SAFE_MODE` unconditionally in that situation. -/
theorem c1_power_eclipse_safe_mode :
    (∀ (cur : ADCSState) (t : Telemetry) (c : Counters),
      t.power_ok = false → t.eclipse = true →
      next_high_rate_counter t c < HIGH_RATE_PERSISTENCE_COUNT →
      (state_transition cur t c).1 = ADCSState.SAFE_MODE) ∧
    (∀ (cur : ADCSState) (t : Telemetry1),
      t.power_ok = false → t.in_shadow = true →
      state_transition1 cur t = ADCSState.SAFE_MODE) := by
  constructor
  · intro cur t c hp he hr
    rcases le_or_lt SENSOR_FAIL_PERSISTENCE_COUNT (next_sensor_fail_counter t c) with h | h
    · rw [state_transition_sensor_rule cur t c h]
    · rw [state_transition_power_rule cur t c h hr (by rw [hp, he]; rfl)]
  · intro cur t hp hs
    simp [state_transition1, hp, hs]

/-- Concrete instance of `c1_power_eclipse_safe_mode`. -/
theorem c1_power_eclipse_safe_mode_witness :
    (state_transition ADCSState.NOMINAL_POINTING ⟨2, 10, false, true, true⟩ ⟨0, 0⟩).1
        = ADCSState.SAFE_MODE ∧
    state_transition1 ADCSState.NOMINAL_POINTING ⟨2, 10, false, true, true⟩
        = ADCSState.SAFE_MODE :=
  ⟨c1_power_eclipse_safe_mode.1 ADCSState.NOMINAL_POINTING ⟨2, 10, false, true, true⟩ ⟨0, 0⟩
      rfl rfl (by decide),
    c1_power_eclipse_safe_mode.2 ADCSState.NOMINAL_POINTING ⟨2, 10, false, true, true⟩ rfl rfl⟩

/-- Claim C2 as stated is false on code.py: an angular rate above
`ANGULAR_RATE_THRESHOLD` on a cycle where no higher-priority rule fires
and the high-rate streak is still zero yields `SUN_ACQUISITION`, not
`DETUMBLING` — code.py has no instantaneous high-rate rule. -/
theorem c2_counterexample :
    ANGULAR_RATE_THRESHOLD < (7 : ℚ) ∧
    (state_transition ADCSState.SUN_ACQUISITION ⟨7, 10, true, false, true⟩ ⟨0, 0⟩).1
        = ADCSState.SUN_ACQUISITION ∧
    ADCSState.SUN_ACQUISITION ≠ ADCSState.DETUMBLING := by
  decide

/-- Claim C2, amended: the single-cycle instantaneous high-rate rule holds
only in code1.py; in code.py, a cycle whose angular rate exceeds the
threshold yields `DETUMBLING` exactly when the incremented high-rate
streak reaches `HIGH_RATE_PERSISTENCE_COUNT` (and the sensor rule does
not fire), and on an earlier cycle of the streak code.py does not return
`DETUMBLING`. -/
theorem c2_instantaneous_rule :
    (∀ (cur : ADCSState) (t : Telemetry1),
      (!t.power_ok && t.in_shadow) = false →
      ANGULAR_RATE_THRESHOLD < t.angular_rate →
      state_transition1 cur t = ADCSState.DETUMBLING) ∧
    (∀ (cur : ADCSState) (t : Telemetry) (c : Counters),
      next_sensor_fail_counter t c < SENSOR_FAIL_PERSISTENCE_COUNT →
      ANGULAR_RATE_THRESHOLD < t.angular_rate →
      HIGH_RATE_PERSISTENCE_COUNT ≤ c.high_rate_counter + 1 →
      (state_transition cur t c).1 = ADCSState.DETUMBLING) ∧
    (∀ (cur : ADCSState) (t : Telemetry) (c : Counters),
      next_sensor_fail_counter t c < SENSOR_FAIL_PERSISTENCE_COUNT →
      ANGULAR_RATE_THRESHOLD < t.angular_rate →
      c.high_rate_counter + 1 < HIGH_RATE_PERSISTENCE_COUNT →
      (!t.power_ok && t.eclipse) = false →
      (state_transition cur t c).1 ≠ ADCSState.DETUMBLING) := by
  refine ⟨?_, ?_, ?_⟩
  · intro cur t hpe hr
    simp [state_transition1, hpe, if_pos hr]
  · intro cur t c hs hr hcnt
    rw [state_transition_high_rate_rule cur t c hs
      (by rw [next_high_rate_counter_bad t c hr]; exact hcnt)]
  · intro cur t c hs hr hcnt hpe
    have hc : next_high_rate_counter t c < HIGH_RATE_PERSISTENCE_COUNT := by
      rw [next_high_rate_counter_bad t c hr]; exact hcnt
    rcases lt_or_ge t.sun_error SUN_ALIGNMENT_THRESHOLD with h4 | h4
    · rw [state_transition_sun_rule cur t c hs hc hpe h4]
      simp
    · rw [state_transition_sun_acq_rule cur t c hs hc hpe (not_lt.mpr h4)]
      simp

/-- Concrete instance of `c2_instantaneous_rule`. -/
theorem c2_instantaneous_rule_witness :
    state_transition1 ADCSState.SUN_ACQUISITION ⟨7, 10, true, false, true⟩
        = ADCSState.DETUMBLING ∧
    (state_transition ADCSState.SUN_ACQUISITION ⟨7, 10, true, false, true⟩ ⟨2, 0⟩).1
        = ADCSState.DETUMBLING ∧
    (state_transition ADCSState.SUN_ACQUISITION ⟨7, 10, true, false, true⟩ ⟨0, 0⟩).1
        ≠ ADCSState.DETUMBLING :=
  ⟨c2_instantaneous_rule.1 ADCSState.SUN_ACQUISITION ⟨7, 10, true, false, true⟩
      (by decide) (by decide),
    c2_instantaneous_rule.2.1 ADCSState.SUN_ACQUISITION ⟨7, 10, true, false, true⟩ ⟨2, 0⟩
      (by decide) (by decide) (by decide),
    c2_instantaneous_rule.2.2 ADCSState.SUN_ACQUISITION ⟨7, 10, true, false, true⟩ ⟨0, 0⟩
      (by decide) (by decide) (by decide) (by decide)⟩

/-- Claim C3: the transition decision is deterministic in its explicit
inputs — current mode, telemetry sample, and the two debounce counters.
`state_transition` consumes nothing else and its only outputs are the
returned mode and the updated counters. -/
theorem c3_decision_deterministic :
    ∀ (cur1 cur2 : ADCSState) (t1 t2 : Telemetry) (c1 c2 : Counters),
      cur1 = cur2 → t1 = t2 → c1 = c2 →
      state_transition cur1 t1 c1 = state_transition cur2 t2 c2 := by
  intro cur1 cur2 t1 t2 c1 c2 h1 h2 h3
  rw [h1, h2, h3]

/-- Concrete instance of `c3_decision_deterministic`. -/
theorem c3_decision_deterministic_witness :
    state_transition ADCSState.DETUMBLING good_sensor_sample ⟨0, 0⟩
      = state_transition ADCSState.DETUMBLING good_sensor_sample ⟨0, 0⟩ :=
  c3_decision_deterministic ADCSState.DETUMBLING ADCSState.DETUMBLING
    good_sensor_sample good_sensor_sample ⟨0, 0⟩ ⟨0, 0⟩ rfl rfl rfl

/-- Claim C4: with `SENSOR_FAIL_PERSISTENCE_COUNT = 3`, running code.py's
`state_transition` (threading counters and modes as the main loop does)
over two consecutive failed-sensor cycles followed by one good cycle never
raises the persistent-sensor-fail condition and never enters `SAFE_MODE`,
while three consecutive failed-sensor cycles raise it on the third. -/
theorem c4_sensor_debounce :
    (∀ r ∈ run_transitions ADCSState.SUN_ACQUISITION ⟨0, 0⟩
        (List.replicate (SENSOR_FAIL_PERSISTENCE_COUNT - 1) bad_sensor_sample
          ++ [good_sensor_sample]),
      persistent_sensor_fail r.2 = false ∧ r.1 ≠ ADCSState.SAFE_MODE) ∧
    persistent_sensor_fail
      ((run_transitions ADCSState.SUN_ACQUISITION ⟨0, 0⟩
          (List.replicate SENSOR_FAIL_PERSISTENCE_COUNT bad_sensor_sample)).getLastD
        (ADCSState.SUN_ACQUISITION, ⟨0, 0⟩)).2 = true ∧
    ((run_transitions ADCSState.SUN_ACQUISITION ⟨0, 0⟩
        (List.replicate SENSOR_FAIL_PERSISTENCE_COUNT bad_sensor_sample)).getLastD
      (ADCSState.SUN_ACQUISITION, ⟨0, 0⟩)).1 = ADCSState.SAFE_MODE := by
  decide

/-- Concrete instance of `c4_sensor_debounce` (its first conjunct is a
bounded universal over the computed run). -/
theorem c4_sensor_debounce_witness :
    persistent_sensor_fail
      (state_transition ADCSState.SUN_ACQUISITION bad_sensor_sample ⟨0, 0⟩).2 = false ∧
    (state_transition ADCSState.SUN_ACQUISITION bad_sensor_sample ⟨0, 0⟩).1
      ≠ ADCSState.SAFE_MODE :=
  c4_sensor_debounce.1
    (state_transition ADCSState.SUN_ACQUISITION bad_sensor_sample ⟨0, 0⟩) (by decide)

/-- Claim C5 as stated is false on code.py: with the high-rate streak at
its persistence threshold, a cycle whose angular-rate reading is good but
whose sensor check fails with the sensor streak reaching its own
threshold returns early from Case 1, leaving the high-rate streak at 3
instead of resetting it to 0. -/
theorem c5_counterexample :
    HIGH_RATE_PERSISTENCE_COUNT ≤ 3 ∧
    ¬ ANGULAR_RATE_THRESHOLD < (2 : ℚ) ∧
    (state_transition ADCSState.DETUMBLING ⟨2, 10, true, false, false⟩ ⟨3, 2⟩).2.high_rate_counter
        = 3 ∧
    (3 : ℕ) ≠ 0 := by
  decide

/-- Claim C5, amended: a good reading resets the corresponding streak to
exactly 0 (not a decrement) — unconditionally for the sensor streak, and
for the high-rate streak provided the persistent-sensor-fail early return
does not fire that cycle. -/
theorem c5_reset_to_zero :
    (∀ (cur : ADCSState) (t : Telemetry) (c : Counters),
      SENSOR_FAIL_PERSISTENCE_COUNT ≤ c.sensor_fail_counter →
      t.sensor_ok = true →
      (state_transition cur t c).2.sensor_fail_counter = 0) ∧
    (∀ (cur : ADCSState) (t : Telemetry) (c : Counters),
      HIGH_RATE_PERSISTENCE_COUNT ≤ c.high_rate_counter →
      ¬ ANGULAR_RATE_THRESHOLD < t.angular_rate →
      next_sensor_fail_counter t c < SENSOR_FAIL_PERSISTENCE_COUNT →
      (state_transition cur t c).2.high_rate_counter = 0) := by
  constructor
  · intro cur t c hc hok
    have hs : next_sensor_fail_counter t c < SENSOR_FAIL_PERSISTENCE_COUNT := by
      rw [next_sensor_fail_counter_good t c hok]; decide
    rcases le_or_lt HIGH_RATE_PERSISTENCE_COUNT (next_high_rate_counter t c) with h2 | h2
    · rw [state_transition_high_rate_rule cur t c hs h2,
        next_sensor_fail_counter_good t c hok]
    · rcases Bool.eq_false_or_eq_true (!t.power_ok && t.eclipse) with h3 | h3
      · rw [state_transition_power_rule cur t c hs h2 h3,
          next_sensor_fail_counter_good t c hok]
      · rcases lt_or_ge t.sun_error SUN_ALIGNMENT_THRESHOLD with h4 | h4
        · rw [state_transition_sun_rule cur t c hs h2 h3 h4,
            next_sensor_fail_counter_good t c hok]
        · rw [state_transition_sun_acq_rule cur t c hs h2 h3 (not_lt.mpr h4),
            next_sensor_fail_counter_good t c hok]
  · intro cur t c hc hrate hs
    have hr : next_high_rate_counter t c < HIGH_RATE_PERSISTENCE_COUNT := by
      rw [next_high_rate_counter_good t c hrate]; decide
    rcases Bool.eq_false_or_eq_true (!t.power_ok && t.eclipse) with h3 | h3
    · rw [state_transition_power_rule cur t c hs hr h3,
        next_high_rate_counter_good t c hrate]
    · rcases lt_or_ge t.sun_error SUN_ALIGNMENT_THRESHOLD with h4 | h4
      · rw [state_transition_sun_rule cur t c hs hr h3 h4,
          next_high_rate_counter_good t c hrate]
      · rw [state_transition_sun_acq_rule cur t c hs hr h3 (not_lt.mpr h4),
          next_high_rate_counter_good t c hrate]

/-- Concrete instance of `c5_reset_to_zero`. -/
theorem c5_reset_to_zero_witness :
    (state_transition ADCSState.DETUMBLING good_sensor_sample ⟨0, 3⟩).2.sensor_fail_counter
        = 0 ∧
    (state_transition ADCSState.DETUMBLING good_sensor_sample ⟨3, 0⟩).2.high_rate_counter
        = 0 :=
  ⟨c5_reset_to_zero.1 ADCSState.DETUMBLING good_sensor_sample ⟨0, 3⟩ (by decide) (by decide),
    c5_reset_to_zero.2 ADCSState.DETUMBLING good_sensor_sample ⟨3, 0⟩
      (by decide) (by decide) (by decide)⟩

/-- Claim C6 as stated is false on code.py: on a cycle whose sensor streak
reaches the persistence count, the early return of Case 1 skips the
high-rate streak update — here the angular rate is above threshold, yet
the high-rate streak stays 0 instead of incrementing to 1. -/
theorem c6_counterexample :
    ANGULAR_RATE_THRESHOLD < (7 : ℚ) ∧
    (state_transition ADCSState.SUN_ACQUISITION ⟨7, 10, true, false, false⟩ ⟨0, 2⟩).2.high_rate_counter
        = 0 ∧
    (0 : ℕ) ≠ 0 + 1 := by
  decide

/-- Claim C6, amended: the sensor streak is updated on every call
(increment on a failed check, reset to 0 on a good one); the high-rate
streak receives the corresponding update only when the
persistent-sensor-fail early return does not fire, and is left unchanged
when it does. -/
theorem c6_counter_updates :
    (∀ (cur : ADCSState) (t : Telemetry) (c : Counters),
      (state_transition cur t c).2.sensor_fail_counter = next_sensor_fail_counter t c) ∧
    (∀ (cur : ADCSState) (t : Telemetry) (c : Counters),
      next_sensor_fail_counter t c < SENSOR_FAIL_PERSISTENCE_COUNT →
      (state_transition cur t c).2.high_rate_counter = next_high_rate_counter t c) ∧
    (∀ (cur : ADCSState) (t : Telemetry) (c : Counters),
      SENSOR_FAIL_PERSISTENCE_COUNT ≤ next_sensor_fail_counter t c →
      (state_transition cur t c).2.high_rate_counter = c.high_rate_counter) := by
  have key : ∀ (cur : ADCSState) (t : Telemetry) (c : Counters),
      next_sensor_fail_counter t c < SENSOR_FAIL_PERSISTENCE_COUNT →
      (state_transition cur t c).2
        = ⟨next_high_rate_counter t c, next_sensor_fail_counter t c⟩ := by
    intro cur t c hs
    rcases le_or_lt HIGH_RATE_PERSISTENCE_COUNT (next_high_rate_counter t c) with h2 | h2
    · rw [state_transition_high_rate_rule cur t c hs h2]
    · rcases Bool.eq_false_or_eq_true (!t.power_ok && t.eclipse) with h3 | h3
      · rw [state_transition_power_rule cur t c hs h2 h3]
      · rcases lt_or_ge t.sun_error SUN_ALIGNMENT_THRESHOLD with h4 | h4
        · rw [state_transition_sun_rule cur t c hs h2 h3 h4]
        · rw [state_transition_sun_acq_rule cur t c hs h2 h3 (not_lt.mpr h4)]
  refine ⟨?_, ?_, ?_⟩
  · intro cur t c
    rcases le_or_lt SENSOR_FAIL_PERSISTENCE_COUNT (next_sensor_fail_counter t c) with h | h
    · rw [state_transition_sensor_rule cur t c h]
    · rw [key cur t c h]
  · intro cur t c hs
    rw [key cur t c hs]
  · intro cur t c hs
    rw [state_transition_sensor_rule cur t c hs]

/-- Concrete instance of `c6_counter_updates`. -/
theorem c6_counter_updates_witness :
    (state_transition ADCSState.SUN_ACQUISITION bad_sensor_sample ⟨1, 0⟩).2.sensor_fail_counter
        = next_sensor_fail_counter bad_sensor_sample ⟨1, 0⟩ ∧
    (state_transition ADCSState.SUN_ACQUISITION good_sensor_sample ⟨1, 0⟩).2.high_rate_counter
        = next_high_rate_counter good_sensor_sample ⟨1, 0⟩ ∧
    (state_transition ADCSState.SUN_ACQUISITION bad_sensor_sample ⟨1, 2⟩).2.high_rate_counter
        = (1 : ℕ) :=
  ⟨c6_counter_updates.1 ADCSState.SUN_ACQUISITION bad_sensor_sample ⟨1, 0⟩,
    c6_counter_updates.2.1 ADCSState.SUN_ACQUISITION good_sensor_sample ⟨1, 0⟩ (by decide),
    c6_counter_updates.2.2 ADCSState.SUN_ACQUISITION bad_sensor_sample ⟨1, 2⟩ (by decide)⟩

/-- Claim C7: `load_state` returns the default `DETUMBLING` on a missing
file, a read failure, unparsable content, an object without a `state` key,
and an object whose `state` value is not a mode name — but a parsable
JSON value that is not an object (here the array `[1, 2]`) makes
`data["state"]` raise a `TypeError`, which is not in the except clause
and propagates to the caller, contradicting never-throws. -/
theorem c7_load_state_type_error :
    load_state (LoadInput.parsed (Json.arr [Json.num 1, Json.num 2]))
        = Except.error PyErr.typeError ∧
    load_state LoadInput.missing = Except.ok ADCSState.DETUMBLING ∧
    load_state LoadInput.readFailure = Except.ok ADCSState.DETUMBLING ∧
    load_state LoadInput.unparsable = Except.ok ADCSState.DETUMBLING ∧
    load_state (LoadInput.parsed (Json.obj [("mode", Json.str "DETUMBLING")]))
        = Except.ok ADCSState.DETUMBLING ∧
    load_state (LoadInput.parsed (Json.obj [("state", Json.str "HELLO")]))
        = Except.ok ADCSState.DETUMBLING ∧
    load_state (LoadInput.parsed (Json.obj [("state", Json.num 1)]))
        = Except.ok ADCSState.DETUMBLING :=
  ⟨rfl, rfl, rfl, rfl, rfl, rfl, rfl⟩

/-- Claim C8: the persistence record written by `save_state` round-trips
through `load_state` for every mode variant. -/
theorem c8_save_load_round_trip :
    ∀ m : ADCSState, load_state (LoadInput.parsed (save_state m)) = Except.ok m := by
  intro m
  cases m <;> rfl

/-- Concrete instance of `c8_save_load_round_trip`. -/
theorem c8_save_load_round_trip_witness :
    load_state (LoadInput.parsed (save_state ADCSState.SAFE_MODE))
      = Except.ok ADCSState.SAFE_MODE :=
  c8_save_load_round_trip ADCSState.SAFE_MODE

/-- Claim C9 as stated is false on code.py: in a `DETUMBLING` cycle the
actuation function acts on its own angular-rate draw (7 here) while
`state_transition` draws a fresh angular rate (2 here); the two are
different readings of the same field within one cycle. -/
theorem c9_counterexample :
    (main_cycle ADCSState.DETUMBLING ⟨0, 0⟩ [7, 2, 10, 50, 1/2, 9/10]).1 = some 7 ∧
    (main_cycle ADCSState.DETUMBLING ⟨0, 0⟩ [7, 2, 10, 50, 1/2, 9/10]).2.1.angular_rate = 2 ∧
    (7 : ℚ) ≠ 2 :=
  ⟨rfl, rfl, by norm_num⟩

/-- Claim C9, amended: actuation and the transition engine sample the
telemetry provider independently within one cycle — in a `DETUMBLING`
cycle the actuation acts on the provider's next reading while
`state_transition` decides on the subsequent fresh reading, so the two
coincide only when the provider happens to return equal values. -/
theorem c9_independent_reads :
    ∀ (r0 r1 : ℚ) (rest : List ℚ) (c : Counters),
      (main_cycle ADCSState.DETUMBLING c (r0 :: r1 :: rest)).1 = some r0 ∧
      (main_cycle ADCSState.DETUMBLING c (r0 :: r1 :: rest)).2.1.angular_rate = r1 := by
  intro r0 r1 rest c
  exact ⟨rfl, rfl⟩

/-- Concrete instance of `c9_independent_reads`. -/
theorem c9_independent_reads_witness :
    (main_cycle ADCSState.DETUMBLING ⟨0, 0⟩ ((3 : ℚ) :: (4 : ℚ) :: [])).1 = some 3 ∧
    (main_cycle ADCSState.DETUMBLING ⟨0, 0⟩ ((3 : ℚ) :: (4 : ℚ) :: [])).2.1.angular_rate = 4 :=
  c9_independent_reads 3 4 [] ⟨0, 0⟩

/-- Claim C10: both variants' transition decisions ignore the current
mode entirely, and one cycle of nominal telemetry (sensors healthy, power
ok, angular rate at or below threshold) leaves `SAFE_MODE` for
`NOMINAL_POINTING` or `SUN_ACQUISITION`. -/
theorem c10_mode_independent :
    (∀ (m1 m2 : ADCSState) (t : Telemetry) (c : Counters),
      state_transition m1 t c = state_transition m2 t c) ∧
    (∀ (m1 m2 : ADCSState) (t : Telemetry1),
      state_transition1 m1 t = state_transition1 m2 t) ∧
    (∀ (t : Telemetry) (c : Counters),
      t.sensor_ok = true → t.power_ok = true →
      t.angular_rate ≤ ANGULAR_RATE_THRESHOLD →
      (state_transition ADCSState.SAFE_MODE t c).1 = ADCSState.NOMINAL_POINTING ∨
      (state_transition ADCSState.SAFE_MODE t c).1 = ADCSState.SUN_ACQUISITION) := by
  refine ⟨fun m1 m2 t c => rfl, fun m1 m2 t => rfl, ?_⟩
  intro t c hsen hp hr
  have hs : next_sensor_fail_counter t c < SENSOR_FAIL_PERSISTENCE_COUNT := by
    rw [next_sensor_fail_counter_good t c hsen]; decide
  have hc : next_high_rate_counter t c < HIGH_RATE_PERSISTENCE_COUNT := by
    rw [next_high_rate_counter_good t c (not_lt.mpr hr)]; decide
  have hpe : (!t.power_ok && t.eclipse) = false := by
    rw [hp]; rfl
  rcases lt_or_ge t.sun_error SUN_ALIGNMENT_THRESHOLD with h4 | h4
  · left
    rw [state_transition_sun_rule ADCSState.SAFE_MODE t c hs hc hpe h4]
  · right
    rw [state_transition_sun_acq_rule ADCSState.SAFE_MODE t c hs hc hpe (not_lt.mpr h4)]

/-- Concrete instance of `c10_mode_independent`. -/
theorem c10_mode_independent_witness :
    state_transition ADCSState.SAFE_MODE good_sensor_sample ⟨0, 0⟩
        = state_transition ADCSState.DETUMBLING good_sensor_sample ⟨0, 0⟩ ∧
    state_transition1 ADCSState.SAFE_MODE ⟨2, 10, true, false, true⟩
        = state_transition1 ADCSState.DETUMBLING ⟨2, 10, true, false, true⟩ ∧
    ((state_transition ADCSState.SAFE_MODE good_sensor_sample ⟨0, 0⟩).1
        = ADCSState.NOMINAL_POINTING ∨
      (state_transition ADCSState.SAFE_MODE good_sensor_sample ⟨0, 0⟩).1
        = ADCSState.SUN_ACQUISITION) :=
  ⟨c10_mode_independent.1 ADCSState.SAFE_MODE ADCSState.DETUMBLING good_sensor_sample ⟨0, 0⟩,
    c10_mode_independent.2.1 ADCSState.SAFE_MODE ADCSState.DETUMBLING ⟨2, 10, true, false, true⟩,
    c10_mode_independent.2.2 good_sensor_sample ⟨0, 0⟩ rfl rfl (by decide)⟩
